import Mathlib

/-!
Shallow embedding of the obsidian-wikipedia-data plugin (src/main.ts) and
proofs about its specification claims.

Strings are modelled as `List Char` (`Str`), so that the JavaScript string
operations used by the plugin (`replace` with its first-occurrence semantics
and `$`-substitution patterns, `trim`, `split`, `slice`, `charAt`) can be
given by structural recursion and reasoned about by induction.
-/

namespace WikipediaData

/-- Strings as lists of characters. -/
abbrev Str := List Char

/-- Coerce a Lean string literal to the `Str` model. -/
def str (s : String) : Str := s.data

/-- JavaScript whitespace for `String.prototype.trim` (the common members:
space, tab, newline, carriage return, vertical tab, form feed). -/
def isWSChar (c : Char) : Bool :=
  c == ' ' || c == '\t' || c == '\n' || c == '\r' || c == '\x0b' || c == '\x0c'

/-- `s.trim()`: drop leading and trailing whitespace. -/
def trimStr (s : Str) : Str :=
  ((s.dropWhile isWSChar).reverse.dropWhile isWSChar).reverse

/-- One character of `s.replace(/\n/g, " ")` (main.ts:117-118): a literal
newline becomes a single space, any other character is kept. -/
def nlToSpace (c : Char) : Char := if c = '\n' then ' ' else c

/-- `s.replace(/\n/g, " ")`: replace every literal newline by a space. -/
def replaceNl (s : Str) : Str := s.map nlToSpace

/-- Whether `pat` is a prefix of `s` (character-exact). -/
def isPrefixStr : Str → Str → Bool
  | [], _ => true
  | _ :: _, [] => false
  | p :: ps, c :: cs => p == c && isPrefixStr ps cs

/-- Split `s` around the first occurrence of `pat`: `some (before, after)`
with `s = before ++ pat ++ after` at the leftmost position, `none` when `pat`
does not occur.  This is the searching core of JavaScript
`String.prototype.replace` with a string pattern. -/
def firstSplit (pat : Str) : Str → Option (Str × Str)
  | [] => if isPrefixStr pat [] then some ([], []) else none
  | c :: rest =>
    if isPrefixStr pat (c :: rest) then some ([], (c :: rest).drop pat.length)
    else (firstSplit pat rest).map (fun p => (c :: p.1, p.2))

/-- `s.contains(pat)` / `s.includes(pat)`. -/
def containsStr (s pat : Str) : Bool := (firstSplit pat s).isSome

/-- Number of positions of `s` at which `pat` matches (used to state
"occurs exactly once"). -/
def countMatchesAt (pat : Str) : Str → Nat
  | [] => if isPrefixStr pat [] then 1 else 0
  | c :: rest => (if isPrefixStr pat (c :: rest) then 1 else 0) + countMatchesAt pat rest

/-- Expansion of `$`-patterns in a JavaScript replacement string (no capture
groups, as with a string pattern or a group-free regex): `$$` is a literal
dollar, `$&` the matched text, a backtick-dollar the text before the match,
an apostrophe-dollar the text after; any other `$` is literal. -/
def expandRepl (repl matched before after : Str) : Str :=
  match repl with
  | [] => []
  | c :: rest =>
    if c = '$' then
      match rest with
      | [] => ['$']
      | d :: rest2 =>
        if d = '$' then '$' :: expandRepl rest2 matched before after
        else if d = '&' then matched ++ expandRepl rest2 matched before after
        else if d = Char.ofNat 96 then before ++ expandRepl rest2 matched before after
        else if d = Char.ofNat 39 then after ++ expandRepl rest2 matched before after
        else '$' :: d :: expandRepl rest2 matched before after
    else c :: expandRepl rest matched before after

/-- JavaScript `s.replace(pat, repl)` with a string pattern: replace the first
occurrence of `pat` (only) by the `$`-expanded replacement; return `s`
unchanged when `pat` does not occur. -/
def jsReplace (s pat repl : Str) : Str :=
  match firstSplit pat s with
  | none => s
  | some (b, a) => b ++ expandRepl repl pat b a ++ a

/-- `text.split(sep)[0]`: the part of `text` before the first occurrence of
`sep` (the whole of `text` when `sep` does not occur). -/
def beforeFirst (sep text : Str) : Str :=
  match firstSplit sep text with
  | none => text
  | some (b, _) => b

/-- `s.split("\n")`. -/
def splitNl : Str → List Str
  | [] => [[]]
  | c :: rest =>
    if c = '\n' then [] :: splitNl rest
    else
      match splitNl rest with
      | [] => [[c]]
      | h :: t => (c :: h) :: t

/-- `parts.join("")`. -/
def joinStrs (parts : List Str) : Str := parts.foldr (· ++ ·) []

/-! ### The fragment of JavaScript regular expressions built by
`new RegExp(searchTerm, "i")` (main.ts:120, 145)

The plugin compiles the raw search term as a case-insensitive regular
expression without escaping it.  We model the fragment needed by the claims:
literal characters and the dot wildcard.  A term using any other
metacharacter is outside the modelled fragment and compilation yields
`none`; theorems only ever evaluate the compiler inside the fragment. -/

/-- One token of a compiled pattern. -/
inductive RTok where
  | lit (c : Char)
  | any
  deriving DecidableEq, Repr

/-- A compiled pattern: a fixed-length token list. -/
abbrev Pattern := List RTok

/-- The regular-expression metacharacters (a term containing none of these is
matched purely literally by `new RegExp`). -/
def regexMeta : Str := str "\\^$.|?*+()[]\x7b\x7d"

/-- Compile a search term as `new RegExp(term, "i")`, for the modelled
fragment: `.` becomes the wildcard, a non-metacharacter matches itself
case-insensitively, any other metacharacter is out of the fragment. -/
def regexCompile (term : Str) : Option Pattern :=
  term.foldr
    (fun c acc =>
      match acc with
      | none => none
      | some ps =>
        if c = '.' then some (.any :: ps)
        else if c ∈ regexMeta then none
        else some (.lit c :: ps))
    (some [])

/-- Whether the pattern matches a prefix of `s` (case-insensitive literals;
the dot matches anything but a line terminator). -/
def patMatchesPrefix : Pattern → Str → Bool
  | [], _ => true
  | _ :: _, [] => false
  | .lit c :: ps, x :: xs => (x.toLower == c.toLower) && patMatchesPrefix ps xs
  | .any :: ps, x :: xs => (x != '\n' && x != '\r') && patMatchesPrefix ps xs

/-- First match of a fixed-length pattern in `s`:
`some (before, matched, after)` at the leftmost matching position. -/
def firstMatchRe (p : Pattern) : Str → Option (Str × Str × Str)
  | [] => if patMatchesPrefix p [] then some ([], [], []) else none
  | c :: rest =>
    if patMatchesPrefix p (c :: rest) then
      some ([], (c :: rest).take p.length, (c :: rest).drop p.length)
    else (firstMatchRe p rest).map (fun x => (c :: x.1, x.2.1, x.2.2))

/-- JavaScript `s.replace(re, repl)` with a (group-free) regex pattern:
replace the first match only. -/
def replaceRe (s : Str) (p : Pattern) (repl : Str) : Str :=
  match firstMatchRe p s with
  | none => s
  | some (b, m, a) => b ++ expandRepl repl m b a ++ a

/-- A term free of regular-expression metacharacters — the terms the spec
calls "literal". -/
def allLiteral (term : Str) : Prop := ∀ c ∈ term, c ∉ regexMeta

instance (term : Str) : Decidable (allLiteral term) := List.decidableBAll _ term

/-- Modelled from the spec's words (§4.3 search-term emphasis): whether
`term` is a case-insensitive (character-wise lower-case–equal) prefix of
`s`. -/
def isPrefixCI : Str → Str → Bool
  | [], _ => true
  | _ :: _, [] => false
  | p :: ps, c :: cs => c.toLower == p.toLower && isPrefixCI ps cs

/-- Modelled from the spec's words: the first case-insensitive literal
occurrence of `term` in `s`, as `some (before, occurrence, after)`. -/
def firstSplitCI (term : Str) : Str → Option (Str × Str × Str)
  | [] => if isPrefixCI term [] then some ([], [], []) else none
  | c :: rest =>
    if isPrefixCI term (c :: rest) then
      some ([], (c :: rest).take term.length, (c :: rest).drop term.length)
    else (firstSplitCI term rest).map (fun x => (c :: x.1, x.2.1, x.2.2))

/-- Modelled from the spec's words: replace the first case-insensitive
literal occurrence of `term` in `s` by `repl` (and return `s` unchanged when
there is none). -/
def literalReplaceCI (s term repl : Str) : Str :=
  match firstSplitCI term s with
  | none => s
  | some (b, _, a) => b ++ repl ++ a

/-! ### Untyped JavaScript values and property access

The three response parsers (main.ts:178-207) receive `any`-typed decoded
JSON and access properties without checking them.  We model the values and
the throwing behaviour of property access on `undefined`/`null`; a thrown
`TypeError`/`SyntaxError` is an `Except.error`. -/

/-- Errors thrown by the modelled JavaScript code. -/
inductive JsErr where
  | typeError
  | syntaxError
  deriving DecidableEq, Repr

/-- Untyped JavaScript values: JSON data, `undefined`, and `notice`, an
opaque data-free object (the `Notice` a fetch's `.catch` handler returns,
main.ts:216-221).  Numbers are modelled as integers (the plugin only meets
page ids and list lengths). -/
inductive JsValue where
  | undefined
  | jsNull
  | bool (b : Bool)
  | num (n : Int)
  | string (s : Str)
  | arr (xs : List JsValue)
  | obj (fields : List (String × JsValue))
  | notice

/-- Numeric value of a single-digit property name (the plugin only ever
indexes an array at `0`). -/
def digitIdx? (name : String) : Option Nat :=
  match name.data with
  | [c] => if c.isDigit then some (c.toNat - 48) else none
  | _ => none

/-- Property access `v[name]`: throws on `undefined`/`null`; an absent
property of an object reads as `undefined`; arrays expose `length` and their
indices; properties of other values (including the opaque `notice`) read as
`undefined`. -/
def getProp (v : JsValue) (name : String) : Except JsErr JsValue :=
  match v with
  | .undefined => .error .typeError
  | .jsNull => .error .typeError
  | .obj fields => .ok ((fields.lookup name).getD .undefined)
  | .arr xs =>
    if name = "length" then .ok (.num xs.length)
    else
      match digitIdx? name with
      | some i => .ok ((xs.get? i).getD .undefined)
      | none => .ok .undefined
  | _ => .ok .undefined

/-- `v.hasOwnProperty(name)` as used on the summary JSON (main.ts:185). -/
def jsHasProp (v : JsValue) (name : String) : Bool :=
  match v with
  | .obj fields => (fields.lookup name).isSome
  | _ => false

/-- Using `v` as a string via a string method (`.trim()`, `.contains(..)`):
ok for a string, a thrown `TypeError` otherwise. -/
def jsStrVal (v : JsValue) : Except JsErr Str :=
  match v with
  | .string s => .ok s
  | _ => .error .typeError

/-- `v.toString()` as used on the page id (main.ts:173, 204): renders a
number or string; throws on `undefined`/`null`; other objects render
coarsely. -/
def jsToStringMeth (v : JsValue) : Except JsErr Str :=
  match v with
  | .num n => .ok (toString n).data
  | .string s => .ok s
  | .bool b => .ok (toString b).data
  | .undefined => .error .typeError
  | .jsNull => .error .typeError
  | _ => .ok (str "[object Object]")

/-- Template-literal display of a value (used for the disambiguation URL put
into a notice, main.ts:108). -/
def jsDisplay (v : JsValue) : Str :=
  match v with
  | .string s => s
  | .num n => (toString n).data
  | .bool b => (toString b).data
  | .undefined => str "undefined"
  | .jsNull => str "null"
  | _ => str "[object Object]"

/-- JavaScript loose equality `v == lit` against a non-numeric string
literal: true exactly for the equal string. -/
def jsEqStr (v : JsValue) (lit : Str) : Bool :=
  match v with
  | .string s => s == lit
  | _ => false

/-- JavaScript loose equality `v == 0` (the `resultCount` check,
main.ts:269): true for the number zero and for strings coercing to it. -/
def jsEqZero (v : JsValue) : Bool :=
  match v with
  | .num n => n == 0
  | .string s => s == str "0" || s == []
  | .bool b => b == false
  | _ => false

/-! ### The plugin's data model (main.ts:3-78) -/

/-- `WikipediaDataSettings` (main.ts:3-10); template slots are modelled by
their `value` strings, the only field the core reads. -/
structure WikipediaDataSettings where
  language : Str
  shouldBoldSearchTerm : Bool
  wikipediaTemplates : List Str
  thumbnailTemplate : Str
  useParagraphTemplate : Bool
  paragraphTemplate : Str
  deriving DecidableEq, Repr

/-- The typed `WikimediaData` record (main.ts:20-27). -/
structure WikimediaData where
  type : Str
  title : Str
  description : Str
  summary : Str
  url : Str
  thumbnailUrl : Str
  deriving DecidableEq, Repr

/-- The typed `WikiSearch` record (main.ts:31-38). -/
structure WikiSearch where
  resultCount : Int
  id : Int
  key : Str
  title : Str
  description : Str
  thumbnailUrl : Str
  deriving DecidableEq, Repr

/-- The typed `WikiText` record (main.ts:42-44). -/
structure WikiText where
  fullText : Str
  deriving DecidableEq, Repr

/-- `wikimediaApiUrlBase` (main.ts:46). -/
def wikimediaApiUrlBase : Str := str "wikipedia.org/api/rest_v1/"

/-- `mediaWikiApiUrlBase` (main.ts:47). -/
def mediaWikiApiUrlBase : Str := str "wikipedia.org/w/rest.php/v1/"

/-- `mediaWikiActionApiUrlBase` (main.ts:48). -/
def mediaWikiActionApiUrlBase : Str := str "wikipedia.org/w/api.php"

/-- The default value of every default Wikipedia template slot
(main.ts:50-69; the three defaults share one value). -/
def defaultWikipediaTemplateValue : Str :=
  str "| \x7b\x7bthumbnailTemplate\x7d\x7d | \x7b\x7bsummary\x7d\x7d |\n|-|-|\n| | wikipedia:: [\x7b\x7btitle\x7d\x7d](\x7b\x7burl\x7d\x7d) |\n> [!summary]- Wikipedia Synopsis\n\x7b\x7bintroText\x7d\x7d\n"

/-- `DEFAULT_SETTINGS` (main.ts:71-78). -/
def DEFAULT_SETTINGS : WikipediaDataSettings where
  language := str "en"
  shouldBoldSearchTerm := true
  wikipediaTemplates :=
    [defaultWikipediaTemplateValue, defaultWikipediaTemplateValue,
      defaultWikipediaTemplateValue]
  thumbnailTemplate := str "![img \\|150](\x7b\x7bthumbnailUrl\x7d\x7d)"
  useParagraphTemplate := true
  paragraphTemplate := str "> \x7b\x7bparagraphText\x7d\x7d\n>\n"

/-- The sentinel description that flags a disambiguation search result
(main.ts:273). -/
def disambiguationSentinel : Str := str "Topics referred to by the same term"

/-! ### Text formatters (main.ts:115-153) -/

/-- The bold markers put around the search term:
the replacement string is the raw term between two asterisk pairs,
main.ts:121, 146. -/
def boldWrap (term : Str) : Str := str "**" ++ term ++ str "**"

/-- The repeated emphasis block of both formatters (main.ts:119-122 and
144-147): when bolding is on, build `new RegExp(searchTerm, "i")` and
replace its first match by the bold-wrapped raw term; a term outside the
compilable fragment models the constructor throwing. -/
def boldStep (cfg : WikipediaDataSettings) (term text : Str) : Except JsErr Str :=
  if cfg.shouldBoldSearchTerm then
    match regexCompile term with
    | some p => .ok (replaceRe text p (boldWrap term))
    | none => .error .syntaxError
  else .ok text

/-- The line-flattening of the summary (main.ts:117-118):
`summary.trim().replace(/\n/g, " ")`. -/
def summaryFlatten (s : Str) : Str := replaceNl (trimStr s)

/-- `formatWikimediaDataSummary` (main.ts:116-124). -/
def formatWikimediaDataSummary (wikimediaData : WikimediaData) (searchTerm : Str)
    (cfg : WikipediaDataSettings) : Except JsErr Str :=
  boldStep cfg searchTerm (summaryFlatten wikimediaData.summary)

/-- The `\x7b\x7bparagraphText\x7d\x7d` placeholder of the paragraph template. -/
def paragraphTextTok : Str := str "\x7b\x7bparagraphText\x7d\x7d"

/-- The body of `formatWikiIntroText` before the trailing-`>` cleanup
(main.ts:128-147): intro extraction, optional paragraph templating, and
search-term emphasis. -/
def formatWikiIntroTextBody (wikiText : WikiText) (searchTerm : Str)
    (cfg : WikipediaDataSettings) : Except JsErr Str :=
  let base := trimStr (beforeFirst (str "==") wikiText.fullText)
  let formattedText :=
    if cfg.useParagraphTemplate then
      trimStr (joinStrs ((splitNl base).map
        (fun paragraph => jsReplace cfg.paragraphTemplate paragraphTextTok paragraph)))
    else base
  boldStep cfg searchTerm formattedText

/-- The trailing-`>` cleanup (main.ts:148-151): when
`charAt(length - 1)` is `>`, `slice(0, length - 2)`; `slice`'s negative end
on a one-character string clamps to the empty string, as `take` does. -/
def trailingGtCleanup (t : Str) : Str :=
  if t.get? (t.length - 1) = some '>' then t.take (t.length - 2) else t

/-- `formatWikiIntroText` (main.ts:127-153). -/
def formatWikiIntroText (wikiText : WikiText) (searchTerm : Str)
    (cfg : WikipediaDataSettings) : Except JsErr Str :=
  (formatWikiIntroTextBody wikiText searchTerm cfg).map trailingGtCleanup

/-! ### The template renderer `formatTemplate` (main.ts:156-176) -/

/-- Placeholder token `\x7b\x7btitle\x7d\x7d`. -/
def titleTok : Str := str "\x7b\x7btitle\x7d\x7d"

/-- Placeholder token `\x7b\x7burl\x7d\x7d`. -/
def urlTok : Str := str "\x7b\x7burl\x7d\x7d"

/-- Placeholder token `\x7b\x7bthumbnailTemplate\x7d\x7d`. -/
def thumbnailTemplateTok : Str := str "\x7b\x7bthumbnailTemplate\x7d\x7d"

/-- Placeholder token `\x7b\x7bthumbnailUrl\x7d\x7d`. -/
def thumbnailUrlTok : Str := str "\x7b\x7bthumbnailUrl\x7d\x7d"

/-- Placeholder token `\x7b\x7bdescription\x7d\x7d`. -/
def descriptionTok : Str := str "\x7b\x7bdescription\x7d\x7d"

/-- Placeholder token `\x7b\x7bsummary\x7d\x7d`. -/
def summaryTok : Str := str "\x7b\x7bsummary\x7d\x7d"

/-- Placeholder token `\x7b\x7bintroText\x7d\x7d`. -/
def introTextTok : Str := str "\x7b\x7bintroText\x7d\x7d"

/-- Placeholder token `\x7b\x7bid\x7d\x7d`. -/
def idTok : Str := str "\x7b\x7bid\x7d\x7d"

/-- Placeholder token `\x7b\x7bkey\x7d\x7d`. -/
def keyTok : Str := str "\x7b\x7bkey\x7d\x7d"

/-- `formatTemplate` (main.ts:156-176): format summary and intro text, pick
the selected template slot (an out-of-range selector models the thrown
`TypeError` of reading `.value` of `undefined`), conditionally choose the
thumbnail sub-template, then the nine single-pass `.replace` steps in source
order. -/
def formatTemplate (wikiSearch : WikiSearch) (wikimediaData : WikimediaData)
    (wikiText : WikiText) (searchTerm : Str) (wikipediaTemplateNum : Nat)
    (cfg : WikipediaDataSettings) : Except JsErr Str := do
  let formattedWikimediaDataSummary ← formatWikimediaDataSummary wikimediaData searchTerm cfg
  let introText ← formatWikiIntroText wikiText searchTerm cfg
  match cfg.wikipediaTemplates.get? (wikipediaTemplateNum - 1) with
  | none => .error .typeError
  | some template =>
    let thumbnailTemplate := if wikimediaData.thumbnailUrl ≠ [] then cfg.thumbnailTemplate else []
    .ok (jsReplace (jsReplace (jsReplace (jsReplace (jsReplace (jsReplace (jsReplace
          (jsReplace (jsReplace template
            titleTok wikimediaData.title)
            urlTok wikimediaData.url)
            thumbnailTemplateTok thumbnailTemplate)
            thumbnailUrlTok wikimediaData.thumbnailUrl)
            descriptionTok wikimediaData.description)
            summaryTok formattedWikimediaDataSummary)
            introTextTok introText)
            idTok (toString wikiSearch.id).data)
            keyTok wikiSearch.key)

/-! ### Outcome classification of `pasteIntoEditor` (main.ts:260-280) -/

/-- The caller-visible outcome of one invocation. -/
inductive Outcome where
  | notFound (searchTerm : Str)
  | disambiguation (searchTerm : Str) (url : Str)
  | rendered (text : Str)
  deriving DecidableEq, Repr

/-- The classification stage of `pasteIntoEditor` (main.ts:265-279), on the
three parsed records.  The `if (!wikiSearch)` branch (main.ts:265) is skipped:
a parsed record is always truthy.  The not-found, disambiguation and render
branches are in source order; rendering throws exactly when `formatTemplate`
does. -/
def pasteOutcome (wikiSearch : WikiSearch) (wikimediaData : WikimediaData)
    (wikiText : WikiText) (searchTerm : Str) (wikipediaTemplateNum : Nat)
    (cfg : WikipediaDataSettings) : Except JsErr Outcome :=
  if containsStr wikimediaData.type (str "missingtitle") || wikiSearch.resultCount == 0 then
    .ok (.notFound searchTerm)
  else if wikimediaData.type == str "disambiguation"
      || wikiSearch.description == disambiguationSentinel then
    .ok (.disambiguation searchTerm wikimediaData.url)
  else
    (formatTemplate wikiSearch wikimediaData wikiText searchTerm wikipediaTemplateNum cfg).map
      .rendered

/-! ### Response parsers on raw JSON (main.ts:178-207)

The parsers store whatever the JSON held, without validation; the records
below therefore carry raw `JsValue` fields.  A parser fails exactly where the
JavaScript property chain throws. -/

/-- `WikiSearch` as actually built by `parseSearchResponse`: raw field
values. -/
structure WikiSearchRaw where
  resultCount : JsValue
  id : JsValue
  key : JsValue
  title : JsValue
  description : JsValue
  thumbnailUrl : JsValue

/-- `WikimediaData` as actually built by `parseDataResponse`. -/
structure WikimediaDataRaw where
  type : JsValue
  title : JsValue
  description : JsValue
  summary : JsValue
  url : JsValue
  thumbnailUrl : JsValue

/-- `WikiText` as actually built by `parseTextResponse`. -/
structure WikiTextRaw where
  fullText : JsValue

/-- `parseDataResponse` (main.ts:178-188), field accesses in source order:
`type`, `title`, `extract`, `description`, `content_urls.desktop.page`, and
`thumbnail.source` guarded by `hasOwnProperty`. -/
def parseDataResponse (json : JsValue) : Except JsErr WikimediaDataRaw := do
  let ty ← getProp json "type"
  let ti ← getProp json "title"
  let ex ← getProp json "extract"
  let de ← getProp json "description"
  let cu ← getProp json "content_urls"
  let dt ← getProp cu "desktop"
  let pg ← getProp dt "page"
  let th ←
    if jsHasProp json "thumbnail" then do
      let t ← getProp json "thumbnail"
      getProp t "source"
    else .ok (.string [])
  .ok { type := ty, title := ti, summary := ex, description := de, url := pg,
        thumbnailUrl := th }

/-- `parseSearchResponse` (main.ts:190-200), field accesses in source order:
`pages.length`, then `pages[0].id`, `.key`, `.title`, `.description`,
`.thumbnailUrl`.  On an empty `pages` list, `pages[0]` is `undefined` and
the `.id` access throws. -/
def parseSearchResponse (json : JsValue) : Except JsErr WikiSearchRaw := do
  let pages ← getProp json "pages"
  let len ← getProp pages "length"
  let p0 ← getProp pages "0"
  let pid ← getProp p0 "id"
  let key ← getProp p0 "key"
  let ti ← getProp p0 "title"
  let de ← getProp p0 "description"
  let th ← getProp p0 "thumbnailUrl"
  .ok { resultCount := len, id := pid, key := key, title := ti, description := de,
        thumbnailUrl := th }

/-- `parseTextResponse` (main.ts:202-207): `json.query.pages[id.toString()].extract`. -/
def parseTextResponse (json : JsValue) (id : JsValue) : Except JsErr WikiTextRaw := do
  let key ← jsToStringMeth id
  let q ← getProp json "query"
  let ps ← getProp q "pages"
  let pg ← getProp ps (String.mk key)
  let ex ← getProp pg "extract"
  .ok { fullText := ex }

/-! ### The fetch wrappers (main.ts:209-258)

A fetch is abstracted by its result: `Except.ok json` for a request whose
body parsed as JSON, `Except.error ()` for a network or JSON-parse failure.
On failure, the `.catch` handler shows a notice naming the source and — this
is the crucial slip — returns that `Notice` object, which is then fed to the
response parser. -/

/-- The failure notice of `getWikimediaData` (main.ts:218-220). -/
def wikimediaFailNotice : String :=
  "Failed to reach Wikimedia API for article data. Check your search term, internet connection, or language prefix."

/-- The failure notice of `getWikiSearch` (main.ts:235-237). -/
def mediaWikiFailNotice : String :=
  "Failed to reach MediaWiki API for article title. Check your search term, internet connection, or language prefix."

/-- The failure notice of `getWikiText` (main.ts:252-254). -/
def mediaWikiActionFailNotice : String :=
  "Failed to reach MediaWiki Action API for article text. Check your search term, internet connection, or language prefix."

/-- `getWikiSearch` (main.ts:226-241): the notices shown and the parse
result; on fetch failure the parser receives the `Notice` object. -/
def getWikiSearch (fetched : Except Unit JsValue) :
    List String × Except JsErr WikiSearchRaw :=
  match fetched with
  | .ok json => ([], parseSearchResponse json)
  | .error _ => ([mediaWikiFailNotice], parseSearchResponse .notice)

/-- `getWikimediaData` (main.ts:209-224). -/
def getWikimediaData (fetched : Except Unit JsValue) :
    List String × Except JsErr WikimediaDataRaw :=
  match fetched with
  | .ok json => ([], parseDataResponse json)
  | .error _ => ([wikimediaFailNotice], parseDataResponse .notice)

/-- `getWikiText` (main.ts:243-258). -/
def getWikiText (fetched : Except Unit JsValue) (id : JsValue) :
    List String × Except JsErr WikiTextRaw :=
  match fetched with
  | .ok json => ([], parseTextResponse json id)
  | .error _ => ([mediaWikiActionFailNotice], parseTextResponse .notice id)

/-- Read the raw search record at the types its interface declares, as the
render branch effectively does; a mis-typed field is a thrown `TypeError`.
(Parsed records always hold a number in `resultCount`.) -/
def toWikiSearch (r : WikiSearchRaw) : Except JsErr WikiSearch := do
  let rc ← match r.resultCount with | .num n => .ok n | _ => .error .typeError
  let id ← match r.id with | .num n => .ok n | _ => .error .typeError
  let key ← jsStrVal r.key
  let ti ← jsStrVal r.title
  let de ← jsStrVal r.description
  let th ← jsStrVal r.thumbnailUrl
  .ok { resultCount := rc, id := id, key := key, title := ti, description := de,
        thumbnailUrl := th }

/-- Read the raw summary record at its interface types. -/
def toWikimediaData (r : WikimediaDataRaw) : Except JsErr WikimediaData := do
  let ty ← jsStrVal r.type
  let ti ← jsStrVal r.title
  let de ← jsStrVal r.description
  let su ← jsStrVal r.summary
  let ur ← jsStrVal r.url
  let th ← jsStrVal r.thumbnailUrl
  .ok { type := ty, title := ti, description := de, summary := su, url := ur,
        thumbnailUrl := th }

/-- Read the raw extract record at its interface types. -/
def toWikiText (r : WikiTextRaw) : Except JsErr WikiText := do
  let ft ← jsStrVal r.fullText
  .ok { fullText := ft }

/-- `pasteIntoEditor` (main.ts:260-280) over the three fetch results, in
source order: the three awaited gets (an exception at an `await` aborts the
invocation there, carrying the notices shown so far), then the not-found /
disambiguation / render classification.  The render branch reads the raw
records at their declared types before formatting; the JavaScript performs
those same accesses inside `formatTemplate`, so only the position of a
type error differs, not whether one is thrown. -/
def pasteIntoEditor (fetchSearch fetchData fetchText : Except Unit JsValue)
    (searchTerm : Str) (wikipediaTemplateNum : Nat) (cfg : WikipediaDataSettings) :
    List String × Except JsErr Outcome :=
  let (n1, rs) := getWikiSearch fetchSearch
  match rs with
  | .error e => (n1, .error e)
  | .ok ws =>
    let (n2, rd) := getWikimediaData fetchData
    match rd with
    | .error e => (n1 ++ n2, .error e)
    | .ok wd =>
      let (n3, rt) := getWikiText fetchText ws.id
      match rt with
      | .error e => (n1 ++ n2 ++ n3, .error e)
      | .ok wt =>
        (n1 ++ n2 ++ n3, do
          let ty ← jsStrVal wd.type
          if containsStr ty (str "missingtitle") || jsEqZero ws.resultCount then
            .ok (.notFound searchTerm)
          else if ty == str "disambiguation"
              || jsEqStr ws.description disambiguationSentinel then
            .ok (.disambiguation searchTerm (jsDisplay wd.url))
          else do
            let tws ← toWikiSearch ws
            let twd ← toWikimediaData wd
            let twt ← toWikiText wt
            let text ← formatTemplate tws twd twt searchTerm wikipediaTemplateNum cfg
            .ok (.rendered text))

/-! ### Language selection and API URLs (main.ts:83-97) -/

/-- `getLanguage` (main.ts:83-85): the configured language string unless it
is falsy (the empty string), in which case `"en"`. -/
def getLanguage (cfg : WikipediaDataSettings) : Str :=
  if cfg.language ≠ [] then cfg.language else str "en"

/-- `getWikimediaApiUrl` (main.ts:87-89). -/
def getWikimediaApiUrl (cfg : WikipediaDataSettings) : Str :=
  str "https://" ++ getLanguage cfg ++ str "." ++ wikimediaApiUrlBase ++ str "page/summary/"

/-- `getMediaWikiApiUrl` (main.ts:91-93). -/
def getMediaWikiApiUrl (cfg : WikipediaDataSettings) : Str :=
  str "https://" ++ getLanguage cfg ++ str "." ++ mediaWikiApiUrlBase ++ str "search/title?q="

/-- `getMediaWikiActionApiUrl` (main.ts:95-97). -/
def getMediaWikiActionApiUrl (cfg : WikipediaDataSettings) : Str :=
  str "https://" ++ getLanguage cfg ++ str "." ++ mediaWikiActionApiUrlBase
    ++ str "?format=json&action=query&prop=extracts&explaintext=1&redirects&origin=*&pageids="

/-! ### Concrete instances used by the claim theorems -/

/-- Settings exercising the renderer alone: one template slot with a
repeated and an unknown token, bolding off. -/
def cfg6 : WikipediaDataSettings :=
  ⟨str "en", false, [str "\x7b\x7bsummary\x7d\x7d \x7b\x7bsummary\x7d\x7d \x7b\x7bunknown\x7d\x7d"],
    [], false, []⟩

/-- A resolved search record for renderer scenarios. -/
def ws6 : WikiSearch := ⟨1, 7, str "K", str "T", str "D", []⟩

/-- A resolved summary record for renderer scenarios. -/
def wd6 : WikimediaData := ⟨str "standard", str "T", str "D", str "Sum", str "U", []⟩

/-- A resolved extract record for renderer scenarios. -/
def wt6 : WikiText := ⟨str "Intro"⟩

/-- Settings whose single template slot uses `\x7b\x7bthumbnailUrl\x7d\x7d`
directly before `\x7b\x7bthumbnailTemplate\x7d\x7d`, with the default
thumbnail sub-template. -/
def cfg7x : WikipediaDataSettings :=
  ⟨str "en", false, [str "\x7b\x7bthumbnailUrl\x7d\x7d \x7b\x7bthumbnailTemplate\x7d\x7d"],
    str "![img \\|150](\x7b\x7bthumbnailUrl\x7d\x7d)", false, []⟩

/-- A resolved search record for the thumbnail scenarios. -/
def ws7 : WikiSearch := ⟨1, 17741, str "K", str "Ludwig Wittgenstein", str "D", []⟩

/-- A resolved summary record for the thumbnail scenarios, parameterised by
its thumbnail URL. -/
def wd7 (u : Str) : WikimediaData :=
  ⟨str "standard", str "Ludwig Wittgenstein", str "D", str "Ludwig X",
    str "https://en.wikipedia.org/wiki/L", u⟩

/-- A resolved extract record for the thumbnail scenarios. -/
def wt7 : WikiText := ⟨str "Hello"⟩

/-- The default template after its title, url and thumbnail-sub-template
substitutions in the `wd7` scenario. -/
def c7S3 : Str :=
  str "| ![img \\|150](\x7b\x7bthumbnailUrl\x7d\x7d) | \x7b\x7bsummary\x7d\x7d |\n|-|-|\n| | wikipedia:: [Ludwig Wittgenstein](https://en.wikipedia.org/wiki/L) |\n> [!summary]- Wikipedia Synopsis\n\x7b\x7bintroText\x7d\x7d\n"

/-- The rendered text before the substituted thumbnail URL in the `wd7`
scenario. -/
def c7ThumbPre : Str := str "| ![img \\|150]("

/-- `c7S3` after its thumbnail-URL placeholder. -/
def c7B0 : Str :=
  str ") | \x7b\x7bsummary\x7d\x7d |\n|-|-|\n| | wikipedia:: [Ludwig Wittgenstein](https://en.wikipedia.org/wiki/L) |\n> [!summary]- Wikipedia Synopsis\n\x7b\x7bintroText\x7d\x7d\n"

/-- `c7B0` after the summary substitution. -/
def c7B1 : Str :=
  str ") | **Ludwig** X |\n|-|-|\n| | wikipedia:: [Ludwig Wittgenstein](https://en.wikipedia.org/wiki/L) |\n> [!summary]- Wikipedia Synopsis\n\x7b\x7bintroText\x7d\x7d\n"

/-- The rendered text after the substituted thumbnail URL in the `wd7`
scenario. -/
def c7ThumbPost : Str :=
  str ") | **Ludwig** X |\n|-|-|\n| | wikipedia:: [Ludwig Wittgenstein](https://en.wikipedia.org/wiki/L) |\n> [!summary]- Wikipedia Synopsis\n> Hello\n"

/-- The full rendered text of the `wd7` scenario with an empty thumbnail
URL. -/
def c7EmptyOut : Str :=
  str "|  | **Ludwig** X |\n|-|-|\n| | wikipedia:: [Ludwig Wittgenstein](https://en.wikipedia.org/wiki/L) |\n> [!summary]- Wikipedia Synopsis\n> Hello\n"

/-! ### Lemmas about the string primitives -/

/-- A replacement string without a dollar sign is inserted verbatim. -/
theorem expandRepl_no_dollar (repl : Str) (h : ('$' : Char) ∉ repl)
    (m b a : Str) : expandRepl repl m b a = repl := by
  induction repl with
  | nil => rfl
  | cons c rest ih =>
    have hc : c ≠ '$' := by rintro rfl; exact h (List.mem_cons_self _ _)
    have h2 : ('$' : Char) ∉ rest := fun hm => h (List.mem_cons_of_mem _ hm)
    rw [expandRepl.eq_def]
    simp [hc, ih h2]

/-- `isPrefixStr` decides the prefix relation. -/
theorem isPrefixStr_iff (p s : Str) : isPrefixStr p s = true ↔ ∃ t, s = p ++ t := by
  induction p generalizing s with
  | nil => simp [isPrefixStr]
  | cons x xs ih =>
    cases s with
    | nil =>
      simp only [isPrefixStr, List.cons_append]
      constructor
      · intro h; cases h
      · rintro ⟨t, ht⟩; cases ht
    | cons c cs =>
      simp only [isPrefixStr, Bool.and_eq_true, beq_iff_eq, ih, List.cons_append,
        List.cons.injEq]
      constructor
      · rintro ⟨rfl, t, rfl⟩; exact ⟨t, rfl, rfl⟩
      · rintro ⟨t, rfl, rfl⟩; exact ⟨rfl, t, rfl⟩

/-- A successful `firstSplit` decomposes the string around the pattern. -/
theorem firstSplit_some_decomp {pat s b a : Str} (h : firstSplit pat s = some (b, a)) :
    s = b ++ pat ++ a := by
  induction s generalizing b a with
  | nil =>
    rw [firstSplit] at h
    split at h
    · obtain ⟨t, ht⟩ := (isPrefixStr_iff pat []).mp (by assumption)
      obtain ⟨rfl, rfl⟩ := List.append_eq_nil.mp ht.symm
      cases h
      rfl
    · cases h
  | cons c rest ih =>
    rw [firstSplit] at h
    split at h
    · obtain ⟨t, ht⟩ := (isPrefixStr_iff pat (c :: rest)).mp (by assumption)
      cases h
      rw [List.nil_append, ht, List.drop_left]
    · rw [Option.map_eq_some'] at h
      obtain ⟨⟨b1, a1⟩, hfs, heq⟩ := h
      cases heq
      rw [ih hfs]
      rfl

/-- A successful `firstSplit` finds the leftmost occurrence. -/
theorem firstSplit_some_min {pat s b a : Str} (h : firstSplit pat s = some (b, a)) :
    ∀ b2 a2 : Str, s = b2 ++ pat ++ a2 → b.length ≤ b2.length := by
  induction s generalizing b a with
  | nil =>
    intro b2 a2 h2
    rw [firstSplit] at h
    split at h
    · cases h; simp
    · cases h
  | cons c rest ih =>
    intro b2 a2 h2
    rw [firstSplit] at h
    split at h
    · cases h; simp
    · rename_i hpre
      rw [Option.map_eq_some'] at h
      obtain ⟨⟨b1, a1⟩, hfs, heq⟩ := h
      cases heq
      cases b2 with
      | nil =>
        exfalso
        rw [List.nil_append] at h2
        exact absurd ((isPrefixStr_iff pat (c :: rest)).mpr ⟨a2, h2⟩) (by simp [hpre])
      | cons c2 b2' =>
        rw [List.cons_append, List.cons_append] at h2
        cases h2
        simpa using Nat.succ_le_succ (ih hfs b2' a2 rfl)

/-- A failing `firstSplit` means the pattern occurs nowhere. -/
theorem firstSplit_none_no_occ {pat s : Str} (h : firstSplit pat s = none) :
    ∀ b a : Str, s ≠ b ++ pat ++ a := by
  intro b a heq
  induction s generalizing b a with
  | nil =>
    rw [firstSplit] at h
    obtain ⟨h1, rfl⟩ := List.append_eq_nil.mp heq.symm
    obtain ⟨rfl, rfl⟩ := List.append_eq_nil.mp h1
    simp [isPrefixStr] at h
  | cons c rest ih =>
    rw [firstSplit] at h
    split at h
    · cases h
    · rename_i hpre
      cases b with
      | nil =>
        rw [List.nil_append] at heq
        exact absurd ((isPrefixStr_iff pat (c :: rest)).mpr ⟨a, heq⟩) (by simp [hpre])
      | cons c2 b' =>
        rw [List.cons_append, List.cons_append] at heq
        cases heq
        exact ih (by simpa using h) b' a rfl

/-- `firstSplit` skips a leading segment free of the pattern's head
character. -/
theorem firstSplit_skip {pat : Str} {h : Char} (hh : pat.head? = some h)
    {xs : Str} (hx : h ∉ xs) (ys : Str) :
    firstSplit pat (xs ++ ys) = (firstSplit pat ys).map (fun p => (xs ++ p.1, p.2)) := by
  induction xs with
  | nil =>
    rw [List.nil_append]
    cases firstSplit pat ys <;> simp
  | cons c xs' ih =>
    have hc : c ≠ h := by rintro rfl; exact hx (List.mem_cons_self _ _)
    have hx' : h ∉ xs' := fun hm => hx (List.mem_cons_of_mem _ hm)
    have hpre : isPrefixStr pat (c :: (xs' ++ ys)) = false := by
      cases pat with
      | nil => cases hh
      | cons p ps =>
        have hp : p = h := by simpa using hh
        subst hp
        simp [isPrefixStr, Ne.symm hc]
    rw [List.cons_append, firstSplit, hpre]
    simp only [Bool.false_eq_true, if_false]
    rw [ih hx']
    cases firstSplit pat ys <;> simp

/-- `jsReplace` skips a leading segment free of the pattern's head
character, for a dollar-free replacement. -/
theorem jsReplace_skip {pat : Str} {h : Char} (hh : pat.head? = some h)
    {xs : Str} (hx : h ∉ xs) (ys repl : Str) (hd : ('$' : Char) ∉ repl) :
    jsReplace (xs ++ ys) pat repl = xs ++ jsReplace ys pat repl := by
  rw [jsReplace, jsReplace, firstSplit_skip hh hx]
  cases hfs : firstSplit pat ys with
  | none => simp
  | some p =>
    obtain ⟨b, a⟩ := p
    simp [expandRepl_no_dollar _ hd, List.append_assoc]

/-! ### Lemmas for line-flattening (C8) -/

/-- Replacing newlines by spaces does not change which characters are
whitespace. -/
theorem isWS_nlToSpace (c : Char) : isWSChar (nlToSpace c) = isWSChar c := by
  by_cases h : c = '\n'
  · subst h; decide
  · simp [nlToSpace, h]

/-- Trimming commutes with newline replacement, so trim-then-replace (the
code's order) equals replace-then-trim (the spec's order). -/
theorem trim_replaceNl_comm (s : Str) : trimStr (replaceNl s) = replaceNl (trimStr s) := by
  have hws : (isWSChar ∘ nlToSpace) = isWSChar := funext isWS_nlToSpace
  simp only [trimStr, replaceNl]
  rw [List.dropWhile_map, hws, ← List.map_reverse, List.dropWhile_map, hws,
    ← List.map_reverse]

/-- The newline-replaced string contains no newline. -/
theorem nl_not_mem_replaceNl (s : Str) : '\n' ∉ replaceNl s := by
  intro h
  rw [replaceNl, List.mem_map] at h
  obtain ⟨c, _, hc⟩ := h
  by_cases h2 : c = '\n'
  · subst h2; simp [nlToSpace] at hc
  · rw [nlToSpace, if_neg h2] at hc; exact h2 hc

/-! ### Lemmas for the literal emphasis fragment (C3) -/

/-- A metacharacter-free term compiles to the pattern of its literal
characters. -/
theorem regexCompile_allLiteral {term : Str} (h : allLiteral term) :
    regexCompile term = some (term.map RTok.lit) := by
  induction term with
  | nil => rfl
  | cons c rest ih =>
    have h1 : c ∉ regexMeta := h c (List.mem_cons_self _ _)
    have h2 : allLiteral rest := fun d hd => h d (List.mem_cons_of_mem _ hd)
    have hdot : c ≠ '.' := by rintro rfl; exact h1 (by decide)
    simp [regexCompile] at ih ⊢
    rw [ih h2]
    simp [hdot, h1]

/-- A pattern of literal tokens matches a prefix exactly when the term is a
case-insensitive prefix. -/
theorem patMatches_map_lit (term s : Str) :
    patMatchesPrefix (term.map RTok.lit) s = isPrefixCI term s := by
  induction term generalizing s with
  | nil => simp [patMatchesPrefix, isPrefixCI]
  | cons c rest ih =>
    cases s with
    | nil => simp [patMatchesPrefix, isPrefixCI]
    | cons x xs => simp [patMatchesPrefix, isPrefixCI, ih]

/-- Matching a literal-token pattern is case-insensitive literal search. -/
theorem firstMatchRe_map_lit (term s : Str) :
    firstMatchRe (term.map RTok.lit) s = firstSplitCI term s := by
  induction s with
  | nil => simp [firstMatchRe, firstSplitCI, patMatches_map_lit]
  | cons c rest ih =>
    simp [firstMatchRe, firstSplitCI, patMatches_map_lit, ih, List.length_map]

/-- For a dollar-free replacement, regex replacement with a literal-token
pattern is the spec's case-insensitive literal replacement. -/
theorem replaceRe_map_lit (text term repl : Str) (hd : ('$' : Char) ∉ repl) :
    replaceRe text (term.map RTok.lit) repl = literalReplaceCI text term repl := by
  rw [replaceRe, literalReplaceCI, firstMatchRe_map_lit]
  cases firstSplitCI term text with
  | none => rfl
  | some x =>
    obtain ⟨b, m, a⟩ := x
    simp [expandRepl_no_dollar _ hd]

/-- The bold-wrapped metacharacter-free term contains no dollar sign. -/
theorem dollar_not_mem_boldWrap {term : Str} (h : allLiteral term) :
    ('$' : Char) ∉ boldWrap term := by
  intro hm
  rw [boldWrap] at hm
  rcases List.mem_append.mp hm with hm1 | hm2
  · rcases List.mem_append.mp hm1 with hm3 | hm4
    · simp [str] at hm3
    · exact h _ hm4 (by decide)
  · simp [str] at hm2

/-- A successful `firstSplitCI` decomposes the string around the matched
occurrence. -/
theorem firstSplitCI_decomp {term s b m a : Str}
    (h : firstSplitCI term s = some (b, m, a)) : s = b ++ m ++ a := by
  induction s generalizing b m a with
  | nil =>
    rw [firstSplitCI] at h
    split at h
    · cases h; rfl
    · cases h
  | cons c rest ih =>
    rw [firstSplitCI] at h
    split at h
    · cases h
      rw [List.nil_append, List.take_append_drop]
    · rw [Option.map_eq_some'] at h
      obtain ⟨⟨b1, m1, a1⟩, hfs, heq⟩ := h
      cases heq
      rw [ih hfs]
      rfl

/-! ### Lemma for the trailing-artifact cleanup (C9) -/

/-- Taking all but the final two characters is a double `dropLast`. -/
theorem take_sub_two (t : Str) : t.take (t.length - 2) = t.dropLast.dropLast := by
  rw [List.dropLast_eq_take, List.dropLast_eq_take, List.take_take, List.length_take]
  congr 1
  omega

/-- The cleanup drops the final two characters exactly when the last
character is `>`. -/
theorem trailingGtCleanup_eq (t : Str) :
    trailingGtCleanup t =
      if t.getLast? = some '>' then t.dropLast.dropLast else t := by
  rw [trailingGtCleanup, List.get?_eq_getElem?, ← List.getLast?_eq_getElem?,
    take_sub_two]

/-- `jsReplace_skip` specialised to patterns headed by an opening brace (all
placeholder tokens). -/
theorem jsReplace_skip_tok (pat : Str) (hh : pat.head? = some (Char.ofNat 123))
    {xs : Str} (hx : Char.ofNat 123 ∉ xs) (ys repl : Str) (hd : ('$' : Char) ∉ repl) :
    jsReplace (xs ++ ys) pat repl = xs ++ jsReplace ys pat repl :=
  jsReplace_skip hh hx ys repl hd

/-- For a metacharacter-free term, the emphasis block is exactly the spec's
case-insensitive literal first-occurrence replacement by the bold-wrapped
term. -/
theorem boldStep_allLiteral (cfg : WikipediaDataSettings) (term text : Str)
    (hlit : allLiteral term) (hbold : cfg.shouldBoldSearchTerm = true) :
    boldStep cfg term text = Except.ok (literalReplaceCI text term (boldWrap term)) := by
  rw [boldStep, if_pos hbold, regexCompile_allLiteral hlit]
  exact congrArg Except.ok (replaceRe_map_lit text term (boldWrap term)
    (dollar_not_mem_boldWrap hlit))

/-! ### The claims -/

/-- C1: whenever the parsed search record reports `resultCount == 0`, the
classification stage of `pasteIntoEditor` yields the `NotFound` outcome
carrying the search term, and in particular never the rendered outcome, so
`formatTemplate` (and with it summary/extract formatting) is not invoked. -/
theorem C1_resultCount_zero_not_found (ws : WikiSearch) (wd : WikimediaData)
    (wt : WikiText) (term : Str) (num : Nat) (cfg : WikipediaDataSettings)
    (h : ws.resultCount = 0) :
    pasteOutcome ws wd wt term num cfg = Except.ok (Outcome.notFound term)
    ∧ ∀ t, pasteOutcome ws wd wt term num cfg ≠ Except.ok (Outcome.rendered t) := by
  have hcond : (containsStr wd.type (str "missingtitle") || ws.resultCount == 0) = true := by
    simp [h]
  have heq : pasteOutcome ws wd wt term num cfg = Except.ok (Outcome.notFound term) := by
    rw [pasteOutcome, if_pos hcond]
  exact ⟨heq, fun t hcontra => by rw [heq] at hcontra; simp at hcontra⟩

/-- Witness for C1 at a concrete empty search result. -/
theorem C1_resultCount_zero_not_found_witness :
    pasteOutcome ⟨0, 7, str "K", str "T", str "D", []⟩
      ⟨str "standard", str "T", str "D", str "S", str "U", []⟩
      ⟨str "F"⟩ (str "Ludwig") 1 DEFAULT_SETTINGS
    = Except.ok (Outcome.notFound (str "Ludwig")) :=
  (C1_resultCount_zero_not_found _ _ _ _ _ _ rfl).1

/-- C2: the search JSON `\x7b pages: [] \x7d` has its required `pages` field
present, yet `parseSearchResponse` does not return a record with
`resultCount = 0` — it throws a `TypeError` reading `pages[0].id`,
contradicting the claim (and making the pipeline's own
`resultCount == 0` branch unreachable). -/
theorem C2_empty_pages_parse_throws :
    getProp (JsValue.obj [("pages", JsValue.arr [])]) "pages" = Except.ok (JsValue.arr [])
    ∧ parseSearchResponse (JsValue.obj [("pages", JsValue.arr [])])
        = Except.error JsErr.typeError :=
  ⟨rfl, rfl⟩

/-- C4: when the search fetch fails, the invocation shows the notice naming
the failed source but then feeds the `Notice` object to
`parseSearchResponse`, which throws a `TypeError`; the invocation therefore
ends in an uncaught exception instead of producing a `SourceUnavailable`-like
outcome the caller could branch on. -/
theorem C4_search_fetch_failure_throws :
    pasteIntoEditor (Except.error ()) (Except.ok (JsValue.obj []))
      (Except.ok (JsValue.obj [])) (str "Ludwig") 1 DEFAULT_SETTINGS
    = ([mediaWikiFailNotice], Except.error JsErr.typeError) := rfl

/-- C5 counterexample: a record satisfying the disambiguation condition (the
search description equals the sentinel) but also the earlier not-found
condition (summary type contains `missingtitle`) is classified `NotFound`,
not `Disambiguation`, refuting the claim as stated. -/
theorem C5_counterexample :
    pasteOutcome ⟨1, 7, str "K", str "T", disambiguationSentinel, []⟩
      ⟨str "missingtitle", str "T", str "D", str "S", str "U", []⟩
      ⟨str "F"⟩ (str "q") 1 DEFAULT_SETTINGS = Except.ok (Outcome.notFound (str "q"))
    ∧ Except.ok (Outcome.notFound (str "q"))
        ≠ (Except.ok (Outcome.disambiguation (str "q") (str "U")) : Except JsErr Outcome) := by
  refine ⟨rfl, fun hcontra => ?_⟩
  simp at hcontra

/-- C5 (amended): provided the not-found conditions do not hold (the summary
type does not contain `missingtitle` and `resultCount` is nonzero), a
summary type equal to `disambiguation` or a search description equal to the
sentinel yields the `Disambiguation` outcome carrying the search term and
the summary record's url, and the renderer is never invoked. -/
theorem C5_amended_disambiguation (ws : WikiSearch) (wd : WikimediaData)
    (wt : WikiText) (term : Str) (num : Nat) (cfg : WikipediaDataSettings)
    (h1 : containsStr wd.type (str "missingtitle") = false)
    (h2 : ws.resultCount ≠ 0)
    (h3 : wd.type = str "disambiguation" ∨ ws.description = disambiguationSentinel) :
    pasteOutcome ws wd wt term num cfg
      = Except.ok (Outcome.disambiguation term wd.url)
    ∧ ∀ t, pasteOutcome ws wd wt term num cfg ≠ Except.ok (Outcome.rendered t) := by
  have hc1 : ¬((containsStr wd.type (str "missingtitle") || ws.resultCount == 0) = true) := by
    simp [h1, h2]
  have hc2 : (wd.type == str "disambiguation"
      || ws.description == disambiguationSentinel) = true := by
    rcases h3 with h | h <;> simp [h]
  have heq : pasteOutcome ws wd wt term num cfg
      = Except.ok (Outcome.disambiguation term wd.url) := by
    rw [pasteOutcome, if_neg hc1, if_pos hc2]
  exact ⟨heq, fun t hcontra => by rw [heq] at hcontra; simp at hcontra⟩

/-- Witness for C5 at a concrete sentinel-description search record. -/
theorem C5_amended_disambiguation_witness :
    pasteOutcome ⟨1, 7, str "K", str "T", disambiguationSentinel, []⟩
      ⟨str "standard", str "T", str "D", str "S", str "U", []⟩
      ⟨str "F"⟩ (str "q") 1 DEFAULT_SETTINGS
    = Except.ok (Outcome.disambiguation (str "q") (str "U")) :=
  (C5_amended_disambiguation _ _ _ _ _ _ (by decide) (by decide) (Or.inr rfl)).1

/-- C8: line-flattening leaves no newline character in the flattened
summary; the code's trim-then-replace equals the spec's replace-then-trim;
and (emphasis off) the formatter returns exactly the flattened summary. -/
theorem C8_line_flattening :
    (∀ s : Str, '\n' ∉ summaryFlatten s)
    ∧ (∀ s : Str, summaryFlatten s = trimStr (replaceNl s))
    ∧ ∀ (wd : WikimediaData) (term : Str) (cfg : WikipediaDataSettings),
        cfg.shouldBoldSearchTerm = false →
        formatWikimediaDataSummary wd term cfg = Except.ok (summaryFlatten wd.summary) := by
  refine ⟨fun s => ?_, fun s => ?_, fun wd term cfg h => ?_⟩
  · rw [summaryFlatten]; exact nl_not_mem_replaceNl _
  · rw [summaryFlatten, trim_replaceNl_comm]
  · rw [formatWikimediaDataSummary, boldStep, if_neg (by simp [h])]

/-- Witness for C8 on a summary with an embedded newline. -/
theorem C8_line_flattening_witness :
    formatWikimediaDataSummary ⟨str "standard", str "T", str "D", str "a\nb", str "U", []⟩
      (str "x") ⟨str "en", false, [], [], false, []⟩ = Except.ok (str "a b") :=
  C8_line_flattening.2.2 ⟨str "standard", str "T", str "D", str "a\nb", str "U", []⟩
    (str "x") ⟨str "en", false, [], [], false, []⟩ rfl

/-- C9: the formatted intro text is the assembled text (paragraph templating
plus emphasis) with its final two characters dropped exactly when its last
character is `>`, and is returned unchanged otherwise. -/
theorem C9_trailing_gt (wt : WikiText) (term : Str) (cfg : WikipediaDataSettings)
    (pre : Str) (h : formatWikiIntroTextBody wt term cfg = Except.ok pre) :
    (pre.getLast? = some '>' →
      formatWikiIntroText wt term cfg = Except.ok pre.dropLast.dropLast)
    ∧ (pre.getLast? ≠ some '>' → formatWikiIntroText wt term cfg = Except.ok pre) := by
  have hmap : formatWikiIntroText wt term cfg = Except.ok (trailingGtCleanup pre) := by
    rw [formatWikiIntroText, h]; rfl
  constructor
  · intro hlast; rw [hmap, trailingGtCleanup_eq, if_pos hlast]
  · intro hlast; rw [hmap, trailingGtCleanup_eq, if_neg hlast]

/-- Witness for C9: the default paragraph template leaves a trailing `>`,
which the cleanup strips together with the preceding newline. -/
theorem C9_trailing_gt_witness :
    formatWikiIntroText ⟨str "Hello"⟩ (str "x") DEFAULT_SETTINGS
      = Except.ok (str "> Hello") :=
  (C9_trailing_gt ⟨str "Hello"⟩ (str "x") DEFAULT_SETTINGS (str "> Hello\n>") rfl).1 rfl

/-- C10: `getLanguage` falls back to `en` exactly when the configured
language is empty, and all three API base URLs carry that non-empty language
prefix. -/
theorem C10_language_default (cfg : WikipediaDataSettings) :
    (cfg.language = [] → getLanguage cfg = str "en")
    ∧ (cfg.language ≠ [] → getLanguage cfg = cfg.language)
    ∧ ∃ lang : Str, lang ≠ []
        ∧ getWikimediaApiUrl cfg
            = str "https://" ++ lang ++ str "." ++ wikimediaApiUrlBase ++ str "page/summary/"
        ∧ getMediaWikiApiUrl cfg
            = str "https://" ++ lang ++ str "." ++ mediaWikiApiUrlBase ++ str "search/title?q="
        ∧ getMediaWikiActionApiUrl cfg
            = str "https://" ++ lang ++ str "." ++ mediaWikiActionApiUrlBase
              ++ str "?format=json&action=query&prop=extracts&explaintext=1&redirects&origin=*&pageids=" := by
  refine ⟨fun h => ?_, fun h => ?_, getLanguage cfg, ?_, rfl, rfl, rfl⟩
  · rw [getLanguage, if_neg (by simp [h])]
  · rw [getLanguage, if_pos h]
  · by_cases h : cfg.language ≠ []
    · rw [getLanguage, if_pos h]; exact h
    · rw [getLanguage, if_neg h]; decide

/-- Witness for C10 at the empty language configuration. -/
theorem C10_language_default_witness :
    getLanguage ⟨[], true, [], [], true, []⟩ = str "en" :=
  (C10_language_default ⟨[], true, [], [], true, []⟩).1 rfl

/-- C3 counterexample: the term is not treated as a literal substring — the
metacharacter term `a.c` matches `abc` and gets wrapped although it does not
occur verbatim; and for the spec's own example the match is replaced by the
raw search term, so the output contains `**ludwig**`, never `**Ludwig**`. -/
theorem C3_counterexample :
    formatWikimediaDataSummary ⟨str "standard", str "T", str "D", str "abc", str "U", []⟩
      (str "a.c") DEFAULT_SETTINGS = Except.ok (str "**a.c**")
    ∧ formatWikimediaDataSummary ⟨str "standard", str "T", str "D",
        str "Ludwig was a philosopher", str "U", []⟩ (str "ludwig") DEFAULT_SETTINGS
      = Except.ok (str "**ludwig** was a philosopher")
    ∧ containsStr (str "**ludwig** was a philosopher") (str "**Ludwig**") = false :=
  ⟨rfl, rfl, rfl⟩

/-- C3 (amended): the search term is compiled as a case-insensitive regular
expression (metacharacters keep their regex meaning); for a
metacharacter-free term the formatter performs exactly the spec's
case-insensitive literal replacement, replacing the first occurrence by the
bold-wrapped raw term (the term's own casing) and leaving text without an
occurrence unchanged; for the Ludwig example the output contains
`**ludwig**` exactly once. -/
theorem C3_emphasis_literal_amended :
    (∀ (wd : WikimediaData) (term : Str) (cfg : WikipediaDataSettings),
        allLiteral term → cfg.shouldBoldSearchTerm = true →
        formatWikimediaDataSummary wd term cfg
          = Except.ok (literalReplaceCI (summaryFlatten wd.summary) term (boldWrap term)))
    ∧ (∀ s term repl : Str, firstSplitCI term s = none → literalReplaceCI s term repl = s)
    ∧ (∀ s term repl b m a : Str, firstSplitCI term s = some (b, m, a) →
        s = b ++ m ++ a ∧ literalReplaceCI s term repl = b ++ repl ++ a)
    ∧ countMatchesAt (boldWrap (str "ludwig")) (str "**ludwig** was a philosopher") = 1 := by
  refine ⟨fun wd term cfg hlit hbold => ?_, fun s term repl h => ?_,
    fun s term repl b m a h => ?_, rfl⟩
  · rw [formatWikimediaDataSummary]
    exact boldStep_allLiteral cfg term _ hlit hbold
  · rw [literalReplaceCI, h]
  · exact ⟨firstSplitCI_decomp h, by rw [literalReplaceCI, h]⟩

/-- Witness for C3 on the Ludwig example. -/
theorem C3_emphasis_literal_amended_witness :
    formatWikimediaDataSummary ⟨str "standard", str "T", str "D",
        str "Ludwig was a philosopher", str "U", []⟩ (str "ludwig") DEFAULT_SETTINGS
      = Except.ok (literalReplaceCI (summaryFlatten (str "Ludwig was a philosopher"))
          (str "ludwig") (boldWrap (str "ludwig"))) :=
  C3_emphasis_literal_amended.1 ⟨str "standard", str "T", str "D",
    str "Ludwig was a philosopher", str "U", []⟩ (str "ludwig") DEFAULT_SETTINGS
    (by decide) rfl

/-- C6: each render step replaces only the first occurrence of its
placeholder — a string in which the token does not occur is returned
unchanged, and otherwise exactly the leftmost occurrence is substituted —
and a concrete rendering shows a repeated token's later occurrence and an
unknown token surviving literally with no error. -/
theorem C6_renderer_single_pass :
    (∀ s pat repl : Str, (∀ b a : Str, s ≠ b ++ pat ++ a) → jsReplace s pat repl = s)
    ∧ (∀ s pat repl b a : Str, firstSplit pat s = some (b, a) →
        s = b ++ pat ++ a
        ∧ (∀ b2 a2 : Str, s = b2 ++ pat ++ a2 → b.length ≤ b2.length)
        ∧ jsReplace s pat repl = b ++ expandRepl repl pat b a ++ a)
    ∧ formatTemplate ws6 wd6 wt6 (str "S") 1 cfg6
        = Except.ok (str "Sum \x7b\x7bsummary\x7d\x7d \x7b\x7bunknown\x7d\x7d") := by
  refine ⟨fun s pat repl h => ?_, fun s pat repl b a h => ?_, rfl⟩
  · cases hfs : firstSplit pat s with
    | none => rw [jsReplace, hfs]
    | some p =>
      obtain ⟨b, a⟩ := p
      exact absurd (firstSplit_some_decomp hfs) (h b a)
  · exact ⟨firstSplit_some_decomp h, firstSplit_some_min h, by rw [jsReplace, h]⟩

/-- Witness for C6: a pattern that does not occur leaves the string
unchanged; a pattern occurring twice is replaced at its first occurrence
only. -/
theorem C6_renderer_single_pass_witness :
    jsReplace (str "abcabc") (str "zz") (str "X") = str "abcabc"
    ∧ jsReplace (str "abcabc") (str "b") (str "X") = str "aXcabc" := by
  constructor
  · exact C6_renderer_single_pass.1 _ _ _ (firstSplit_none_no_occ (by rfl))
  · exact (C6_renderer_single_pass.2.1 (str "abcabc") (str "b") (str "X")
      (str "a") (str "cabc") (by rfl)).2.2

/-- C7 counterexample: with a template using `\x7b\x7bthumbnailUrl\x7d\x7d`
directly before `\x7b\x7bthumbnailTemplate\x7d\x7d` and a non-empty URL, the
single first-occurrence pass substitutes the template's own occurrence, so
the injected thumbnail sub-template keeps its placeholder literally and the
URL-substituted sub-template never appears — refuting the claim as
stated. -/
theorem C7_counterexample :
    formatTemplate ws7 (wd7 (str "URL")) wt7 (str "S") 1 cfg7x
      = Except.ok (str "URL ![img \\|150](\x7b\x7bthumbnailUrl\x7d\x7d)")
    ∧ containsStr (str "URL ![img \\|150](\x7b\x7bthumbnailUrl\x7d\x7d)") thumbnailUrlTok
        = true
    ∧ containsStr (str "URL ![img \\|150](\x7b\x7bthumbnailUrl\x7d\x7d)")
        (str "![img \\|150](URL)") = false :=
  ⟨rfl, rfl, rfl⟩

set_option maxRecDepth 32768 in
/-- C7 (amended): for the default templates, when the thumbnail URL is empty
the `\x7b\x7bthumbnailTemplate\x7d\x7d` placeholder is substituted with the
empty string and the sub-template's literal content does not appear; when it
is non-empty, the sub-template is injected and its
`\x7b\x7bthumbnailUrl\x7d\x7d` placeholder receives the URL — because no
earlier occurrence of that placeholder precedes the injected sub-template in
the partially rendered default template. -/
theorem C7_thumbnail_conditional_amended :
    (formatTemplate ws7 (wd7 []) wt7 (str "Ludwig") 1 DEFAULT_SETTINGS
        = Except.ok c7EmptyOut
      ∧ containsStr c7EmptyOut (str "![img") = false)
    ∧ ∀ u : Str, u ≠ [] → Char.ofNat 123 ∉ u → ('$' : Char) ∉ u →
        formatTemplate ws7 (wd7 u) wt7 (str "Ludwig") 1 DEFAULT_SETTINGS
          = Except.ok (c7ThumbPre ++ u ++ c7ThumbPost) := by
  refine ⟨⟨rfl, rfl⟩, fun u hu hbrace hdollar => ?_⟩
  show Except.ok (jsReplace (jsReplace (jsReplace (jsReplace (jsReplace (jsReplace
        (jsReplace (jsReplace (jsReplace defaultWikipediaTemplateValue
          titleTok (str "Ludwig Wittgenstein"))
          urlTok (str "https://en.wikipedia.org/wiki/L"))
          thumbnailTemplateTok (if u ≠ [] then DEFAULT_SETTINGS.thumbnailTemplate else []))
          thumbnailUrlTok u)
          descriptionTok (str "D"))
          summaryTok (str "**Ludwig** X"))
          introTextTok (str "> Hello"))
          idTok (str "17741"))
          keyTok (str "K"))
      = Except.ok (c7ThumbPre ++ u ++ c7ThumbPost)
  rw [if_pos hu]
  have h3 : jsReplace (jsReplace (jsReplace defaultWikipediaTemplateValue
      titleTok (str "Ludwig Wittgenstein"))
      urlTok (str "https://en.wikipedia.org/wiki/L"))
      thumbnailTemplateTok DEFAULT_SETTINGS.thumbnailTemplate = c7S3 := rfl
  rw [h3]
  have h4 : jsReplace c7S3 thumbnailUrlTok u = c7ThumbPre ++ (u ++ c7B0) := by
    have hred : jsReplace c7S3 thumbnailUrlTok u
        = c7ThumbPre ++ expandRepl u thumbnailUrlTok c7ThumbPre c7B0 ++ c7B0 := rfl
    rw [hred, expandRepl_no_dollar u hdollar, List.append_assoc]
  rw [h4]
  have hpre : Char.ofNat 123 ∉ c7ThumbPre := by decide
  have h5 : jsReplace (c7ThumbPre ++ (u ++ c7B0)) descriptionTok (str "D")
      = c7ThumbPre ++ (u ++ c7B0) := by
    rw [jsReplace_skip_tok descriptionTok rfl hpre (u ++ c7B0) (str "D") (by decide),
      jsReplace_skip_tok descriptionTok rfl hbrace c7B0 (str "D") (by decide)]
    rfl
  rw [h5]
  have h6 : jsReplace (c7ThumbPre ++ (u ++ c7B0)) summaryTok (str "**Ludwig** X")
      = c7ThumbPre ++ (u ++ c7B1) := by
    rw [jsReplace_skip_tok summaryTok rfl hpre (u ++ c7B0) (str "**Ludwig** X") (by decide),
      jsReplace_skip_tok summaryTok rfl hbrace c7B0 (str "**Ludwig** X") (by decide)]
    rfl
  rw [h6]
  have h7 : jsReplace (c7ThumbPre ++ (u ++ c7B1)) introTextTok (str "> Hello")
      = c7ThumbPre ++ (u ++ c7ThumbPost) := by
    rw [jsReplace_skip_tok introTextTok rfl hpre (u ++ c7B1) (str "> Hello") (by decide),
      jsReplace_skip_tok introTextTok rfl hbrace c7B1 (str "> Hello") (by decide)]
    rfl
  rw [h7]
  have h8 : jsReplace (c7ThumbPre ++ (u ++ c7ThumbPost)) idTok (str "17741")
      = c7ThumbPre ++ (u ++ c7ThumbPost) := by
    rw [jsReplace_skip_tok idTok rfl hpre (u ++ c7ThumbPost) (str "17741") (by decide),
      jsReplace_skip_tok idTok rfl hbrace c7ThumbPost (str "17741") (by decide)]
    rfl
  rw [h8]
  have h9 : jsReplace (c7ThumbPre ++ (u ++ c7ThumbPost)) keyTok (str "K")
      = c7ThumbPre ++ (u ++ c7ThumbPost) := by
    rw [jsReplace_skip_tok keyTok rfl hpre (u ++ c7ThumbPost) (str "K") (by decide),
      jsReplace_skip_tok keyTok rfl hbrace c7ThumbPost (str "K") (by decide)]
    rfl
  rw [h9, ← List.append_assoc]

/-- Witness for C7 at a concrete non-empty thumbnail URL. -/
theorem C7_thumbnail_conditional_amended_witness :
    formatTemplate ws7 (wd7 (str "http://img")) wt7 (str "Ludwig") 1 DEFAULT_SETTINGS
      = Except.ok (c7ThumbPre ++ str "http://img" ++ c7ThumbPost) :=
  C7_thumbnail_conditional_amended.2 (str "http://img") (by decide) (by decide) (by decide)

end WikipediaData
